import Mathlib

/-!
Shallow embedding of the FastAPI-core connection-lifecycle manager pattern:
`app/core/config.py` (Settings), `app/core/database.py` (DatabaseManager),
`app/core/redis_client.py` (RedisManager) and `app/main.py` (lifespan hook
and the two routes).  Python exceptions are modelled with `Except`, async
effects as explicit parameters for the outcomes of external I/O calls, and
the mutable manager singletons as explicit state passing.
-/

/-- Exceptions observable in the embedded code: `lifecycle` models the
`RuntimeError` raised by an accessor used outside the initialized window,
`store` models any error surfaced by the external database or cache client
libraries.  The payload is the `str(e)` text. -/
inductive Exc where
  | lifecycle (msg : String)
  | store (msg : String)
deriving DecidableEq

/-- Python `str(e)` on an embedded exception. -/
def Exc.pyStr : Exc → String
  | Exc.lifecycle s => s
  | Exc.store s => s

/-- Environment literal of `Settings.ENVIRONMENT`
(`Literal["development", "staging", "production"]`). -/
inductive Env where
  | development
  | staging
  | production
deriving DecidableEq

/-- Field values of `Settings` in `app/core/config.py`. -/
structure Settings where
  ENVIRONMENT : Env
  APP_PORT : Nat
  POSTGRES_USER : String
  POSTGRES_PASSWORD : String
  POSTGRES_DB : String
  POSTGRES_HOST : String
  POSTGRES_PORT : Nat
  POSTGRES_POOL_SIZE : Nat
  POSTGRES_MAX_OVERFLOW : Nat
  POSTGRES_POOL_TIMEOUT : Nat
  POSTGRES_ECHO : Bool
  POSTGRES_POOL_PRE_PING : Bool
  REDIS_HOST : String
  REDIS_PORT : Nat
  REDIS_PASSWORD : Option String
  REDIS_DB : Nat
  REDIS_MAX_CONNECTIONS : Nat
  REDIS_SOCKET_TIMEOUT : Nat
  REDIS_SOCKET_CONNECT_TIMEOUT : Nat
  SECRET_KEY : String
  ACCESS_TOKEN_EXPIRE_MINUTES : Nat
deriving DecidableEq

/-- The documented defaults of every `Settings` field. -/
def defaultSettings : Settings :=
  { ENVIRONMENT := Env.development
    APP_PORT := 8000
    POSTGRES_USER := "postgres"
    POSTGRES_PASSWORD := "postgres"
    POSTGRES_DB := "fastapi_db"
    POSTGRES_HOST := "localhost"
    POSTGRES_PORT := 5432
    POSTGRES_POOL_SIZE := 20
    POSTGRES_MAX_OVERFLOW := 10
    POSTGRES_POOL_TIMEOUT := 30
    POSTGRES_ECHO := false
    POSTGRES_POOL_PRE_PING := true
    REDIS_HOST := "localhost"
    REDIS_PORT := 6379
    REDIS_PASSWORD := none
    REDIS_DB := 0
    REDIS_MAX_CONNECTIONS := 20
    REDIS_SOCKET_TIMEOUT := 5
    REDIS_SOCKET_CONNECT_TIMEOUT := 5
    SECRET_KEY := "your-secret-key-here-change-in-production"
    ACCESS_TOKEN_EXPIRE_MINUTES := 30 }

/-- Python truthiness of an `Optional[str]` value: `None` and the empty
string are falsy, every other string is truthy. -/
def optStrTruthy : Option String → Bool
  | none => false
  | some s => s != ""

/-- The `POSTGRES_DSN` property of `Settings`. -/
def Settings.POSTGRES_DSN (s : Settings) : String :=
  "postgresql+asyncpg://" ++ s.POSTGRES_USER ++ ":" ++ s.POSTGRES_PASSWORD ++ "@"
    ++ s.POSTGRES_HOST ++ ":" ++ toString s.POSTGRES_PORT ++ "/" ++ s.POSTGRES_DB

/-- The `REDIS_DSN` property of `Settings`: the guard is Python truthiness
of `self.REDIS_PASSWORD` (`if self.REDIS_PASSWORD:`). -/
def Settings.REDIS_DSN (s : Settings) : String :=
  if optStrTruthy s.REDIS_PASSWORD then
    "redis://:" ++ s.REDIS_PASSWORD.getD "" ++ "@" ++ s.REDIS_HOST ++ ":"
      ++ toString s.REDIS_PORT ++ "/" ++ toString s.REDIS_DB
  else
    "redis://" ++ s.REDIS_HOST ++ ":" ++ toString s.REDIS_PORT ++ "/"
      ++ toString s.REDIS_DB

/-- Error text pydantic produces for a violated `min_length` constraint. -/
def stringTooShortMsg : String := "String should have at least 32 characters"

/-- Error text of the `validate_secret_key` field validator. -/
def secretKeyProdMsg : String :=
  "SECRET_KEY должен быть не менее 32 символов в production"

/-- The unconditional `min_length=32` constraint declared on the
`SECRET_KEY` field; pydantic applies it before any after-mode validator. -/
def secretKeyMinLength (v : String) : Except String String :=
  if v.length < 32 then Except.error stringTooShortMsg else Except.ok v

/-- The `validate_secret_key` after-validator: rejects a key shorter than
32 characters only when the environment is production. -/
def validate_secret_key (environment : Env) (v : String) : Except String String :=
  if environment = Env.production ∧ v.length < 32 then Except.error secretKeyProdMsg
  else Except.ok v

/-- Constructing `Settings`: pydantic validates the `SECRET_KEY` field by
running the declared `min_length` constraint and then the
`validate_secret_key` validator; every other field carries no constraint. -/
def mkSettings (d : Settings) : Except String Settings := do
  let v ← secretKeyMinLength d.SECRET_KEY
  let v₂ ← validate_secret_key d.ENVIRONMENT v
  Except.ok { d with SECRET_KEY := v₂ }

/-- Session operations a database session performs in `get_session`,
recorded in the order the code awaits them. -/
inductive SessionOp where
  | commit
  | rollback
  | close
deriving DecidableEq

/-- External-world counter for `DatabaseManager`: how many engines (and
with them connection pools) `create_async_engine` has constructed. -/
structure DbWorld where
  enginesCreated : Nat
deriving DecidableEq

/-- State of `DatabaseManager` (`app/core/database.py`): the three handles
set by `initialize` and the `_initialized` flag.  Handles are identified by
the index of the `create_async_engine` call that produced them. -/
structure DatabaseManager where
  engine : Option Nat
  session_factory : Option Nat
  scoped_session : Option Nat
  _initialized : Bool
deriving DecidableEq

/-- `DatabaseManager.__init__`: every handle `None`, flag `False`. -/
def DatabaseManager.new : DatabaseManager :=
  { engine := none, session_factory := none, scoped_session := none,
    _initialized := false }

/-- Message of the `RuntimeError` in `DatabaseManager.get_session`. -/
def dbNotInitializedMsg : String := "Database не инициализирован. Вызовите initialize()"

/-- `DatabaseManager.initialize`: if already initialized, warn and return;
otherwise construct the engine, session factory, and scoped session and set
the flag.  `createOk` is whether `create_async_engine` succeeds; on failure
the error is logged and re-raised with the state untouched. -/
def DatabaseManager.initialize (m : DatabaseManager) (w : DbWorld) (createOk : Bool) :
    Except Exc Unit × DatabaseManager × DbWorld :=
  if m._initialized then
    (Except.ok (), m, w)
  else if createOk then
    (Except.ok (),
      { engine := some w.enginesCreated
        session_factory := some w.enginesCreated
        scoped_session := some w.enginesCreated
        _initialized := true },
      { enginesCreated := w.enginesCreated + 1 })
  else
    (Except.error (Exc.store "Ошибка инициализации database"), m, w)

/-- `DatabaseManager.close`: if an engine exists, dispose it and reset the
flag; otherwise a no-op. -/
def DatabaseManager.close (m : DatabaseManager) : DatabaseManager :=
  if m.engine.isSome then { m with _initialized := false } else m

/-- `DatabaseManager.get_session` as a context manager: `body` is the
outcome of the caller's unit of work with the yielded session.  Returns the
propagated result together with the session operations performed, in
order: raise a lifecycle error before creating any session when not
initialized; commit on normal completion; roll back, log and re-raise on
an exception; close in a `finally` block in both cases. -/
def DatabaseManager.get_session {α : Type} (m : DatabaseManager)
    (body : Except Exc α) : Except Exc α × List SessionOp :=
  if !m._initialized then
    (Except.error (Exc.lifecycle dbNotInitializedMsg), [])
  else
    match body with
    | Except.ok a => (Except.ok a, [SessionOp.commit, SessionOp.close])
    | Except.error e => (Except.error e, [SessionOp.rollback, SessionOp.close])

/-- `DatabaseManager.health_check`: run `session.execute("SELECT 1")`
(outcome `ex`) inside a scoped session, return `True` on success; any
exception is caught, logged, and turned into `False`.  The codomain
`Except Exc Bool` records that the method itself could in principle raise;
the catch-all `except` is what makes every result `Except.ok`. -/
def DatabaseManager.health_check (m : DatabaseManager)
    (ex : Except Exc Unit) : Except Exc Bool :=
  match (m.get_session ex).1 with
  | Except.ok _ => Except.ok true
  | Except.error _ => Except.ok false

/-- External-world state for `RedisManager`: how many connection pools and
clients have been constructed, and which clients have been closed. -/
structure RedisWorld where
  poolsCreated : Nat
  clientsCreated : Nat
  closedClients : List Nat
deriving DecidableEq

/-- State of `RedisManager` (`app/core/redis_client.py`).  The pool and
client handles are identified by the index of the `ConnectionPool.from_url`
call that produced them. -/
structure RedisManager where
  pool : Option Nat
  client : Option Nat
  _initialized : Bool
deriving DecidableEq

/-- `RedisManager.__init__`: no pool, no client, flag `False`. -/
def RedisManager.new : RedisManager :=
  { pool := none, client := none, _initialized := false }

/-- Message of the `RuntimeError` in `RedisManager.get_client` and
`RedisManager.get_client_context`. -/
def redisNotInitializedMsg : String := "Redis не инициализирован. Вызовите initialize()"

/-- Message of the `RuntimeError` in the module-level `get_redis`. -/
def redisClientNotInitializedMsg : String := "Redis клиент не инициализирован"

/-- `RedisManager.initialize`: if already initialized, warn and return;
otherwise build the pool (`createOk` is whether `ConnectionPool.from_url`
succeeds), derive the client, and ping it (`pingOk`).  A ping failure is
logged and re-raised after the pool and client fields were already
assigned, so the flag stays `False` but the handles remain set. -/
def RedisManager.initialize (m : RedisManager) (w : RedisWorld)
    (createOk pingOk : Bool) : Except Exc Unit × RedisManager × RedisWorld :=
  if m._initialized then
    (Except.ok (), m, w)
  else if !createOk then
    (Except.error (Exc.store "Ошибка инициализации Redis"), m, w)
  else
    let w' : RedisWorld :=
      { w with poolsCreated := w.poolsCreated + 1,
               clientsCreated := w.clientsCreated + 1 }
    if pingOk then
      (Except.ok (),
        { pool := some w.poolsCreated, client := some w.poolsCreated,
          _initialized := true }, w')
    else
      (Except.error (Exc.store "Ошибка инициализации Redis"),
        { pool := some w.poolsCreated, client := some w.poolsCreated,
          _initialized := false }, w')

/-- `RedisManager.close`: `aclose` the client if present and the pool if
present, then reset the flag.  The `client` and `pool` attributes are not
cleared; the closed client id is recorded in the world. -/
def RedisManager.close (m : RedisManager) (w : RedisWorld) :
    RedisManager × RedisWorld :=
  let w₁ : RedisWorld :=
    match m.client with
    | some c => { w with closedClients := c :: w.closedClients }
    | none => w
  ({ m with _initialized := false }, w₁)

/-- `RedisManager.get_client`: raises a lifecycle `RuntimeError` when
`not self._initialized or not self.client`; otherwise returns the client. -/
def RedisManager.get_client (m : RedisManager) : Except Exc Nat :=
  match m._initialized, m.client with
  | true, some c => Except.ok c
  | _, _ => Except.error (Exc.lifecycle redisNotInitializedMsg)

/-- `RedisManager.get_client_context`: same lifecycle guard as
`get_client`, then yields the client to `body`; an exception from the body
is logged and re-raised unchanged. -/
def RedisManager.get_client_context {α : Type} (m : RedisManager)
    (body : Nat → Except Exc α) : Except Exc α :=
  match m._initialized, m.client with
  | true, some c => body c
  | _, _ => Except.error (Exc.lifecycle redisNotInitializedMsg)

/-- `RedisManager.health_check`: if a client object exists, return the
result of `ping()` (outcome `ping`); otherwise return `False`; any
exception is caught, logged, and turned into `False`. -/
def RedisManager.health_check (m : RedisManager)
    (ping : Except Exc Bool) : Except Exc Bool :=
  match m.client with
  | some _ =>
    match ping with
    | Except.ok b => Except.ok b
    | Except.error _ => Except.ok false
  | none => Except.ok false

/-- The module-level dependency accessor `get_redis`: raises only when the
`client` attribute is falsy (`None`); it does not consult `_initialized`. -/
def get_redis (m : RedisManager) : Except Exc Nat :=
  match m.client with
  | none => Except.error (Exc.lifecycle redisClientNotInitializedMsg)
  | some c => Except.ok c

/-- Which manager closes the shutdown block of `lifespan` attempted. -/
inductive CloseAttempt where
  | db
  | redis
deriving DecidableEq

/-- The shutdown block of `lifespan` in `app/main.py`: one `try` wrapping
`await db_manager.close()` then `await redis_manager.close()`, with a
single `except` that logs and does not re-raise.  `dbClose` and
`redisClose` are the outcomes of the two awaited close calls; the result
records what the hook propagates and which closes were attempted, in
order. -/
def lifespanShutdown (dbClose redisClose : Except Exc Unit) :
    Except Exc Unit × List CloseAttempt :=
  match dbClose with
  | Except.error _ => (Except.ok (), [CloseAttempt.db])
  | Except.ok _ =>
    match redisClose with
    | Except.error _ => (Except.ok (), [CloseAttempt.db, CloseAttempt.redis])
    | Except.ok _ => (Except.ok (), [CloseAttempt.db, CloseAttempt.redis])

/-- The JSON body the `GET /health` route builds. -/
structure HealthStatus where
  status : String
  database : String
  redis : String
  environment : String
deriving DecidableEq

/-- Which store checks the `GET /health` handler performed. -/
inductive CheckStep where
  | db
  | redis
deriving DecidableEq

/-- String form of an `Env` literal, as serialized into route payloads. -/
def Env.pyStr : Env → String
  | Env.development => "development"
  | Env.staging => "staging"
  | Env.production => "production"

/-- The `GET /` route: a static payload, no side effects. -/
def rootRoute (s : Settings) : Nat × String × String :=
  (200, "FastAPI Core Module", s.ENVIRONMENT.pyStr)

/-- The `GET /health` handler body: starts from an all-healthy record,
then runs the database check (`dbExec` is the outcome of
`db.execute(text("SELECT 1"))`) in its own `try`, then the cache check
(`redisPing` is the outcome of `redis.ping()`) in its own `try`; each
failure sets `status` to degraded and stores `"error: " ++ str(e)` in that
store's field.  The handler returns the dict, which FastAPI serves with
HTTP 200; the performed checks are recorded in order. -/
def health_check_route (env : Env) (dbExec : Except Exc Unit)
    (redisPing : Except Exc Bool) : (Nat × HealthStatus) × List CheckStep :=
  let h₀ : HealthStatus :=
    { status := "healthy", database := "connected", redis := "connected",
      environment := env.pyStr }
  let h₁ : HealthStatus :=
    match dbExec with
    | Except.ok _ => { h₀ with database := "connected" }
    | Except.error e => { h₀ with status := "degraded",
                                  database := "error: " ++ e.pyStr }
  let h₂ : HealthStatus :=
    match redisPing with
    | Except.ok _ => { h₁ with redis := "connected" }
    | Except.error e => { h₁ with status := "degraded",
                                  redis := "error: " ++ e.pyStr }
  ((200, h₂), [CheckStep.db, CheckStep.redis])

/-- Spec-side reading of the C8 claim, second half: whenever a password is
configured (the `REDIS_PASSWORD` field holds a value), the DSN carries the
credential segment in `:password@` form between scheme and host.  Stated
from the spec's words, to be compared with `Settings.REDIS_DSN`. -/
def specIncludesCredWhenPassword (s : Settings) : Prop :=
  ∀ p, s.REDIS_PASSWORD = some p →
    s.REDIS_DSN = "redis://:" ++ p ++ "@" ++ s.REDIS_HOST ++ ":"
      ++ toString s.REDIS_PORT ++ "/" ++ toString s.REDIS_DB

/-- Settings with a configured-but-empty cache password; all other fields
keep their defaults. -/
def emptyPasswordSettings : Settings :=
  { defaultSettings with REDIS_PASSWORD := some "" }

/-- A successful `DatabaseManager.initialize` always leaves the flag set:
either the manager was already initialized and the call was a warned no-op,
or construction succeeded and the flag was just set. -/
theorem db_initialize_ok_flag {m m' : DatabaseManager} {w w' : DbWorld}
    {ok : Bool} (h : DatabaseManager.initialize m w ok = (Except.ok (), m', w')) :
    m'._initialized = true := by
  cases hm : m._initialized <;> cases hok : ok <;>
    simp [ DatabaseManager.initialize, hm, hok] at h
  · rw [← h.1]
  · rw [← h.1]; exact hm
  · rw [← h.1]; exact hm

/-- The database manager after the first successful `initialize` from the
fresh state, and the matching world. -/
def dbInit1 : DatabaseManager :=
  { engine := some 0, session_factory := some 0, scoped_session := some 0,
    _initialized := true }

/-- Claim C1: after `initialize` has succeeded, `get_session` yields the
session to the caller; a unit of work that completes normally results in a
commit and the value propagating, a unit of work that raises results in a
rollback with the same exception propagating unchanged, and in both cases
the last session operation before control returns is `close`. -/
theorem c1_scoped_session_commit_rollback_close (α : Type)
    (m₀ m : DatabaseManager) (w w' : DbWorld) (ok : Bool)
    (hinit : DatabaseManager.initialize m₀ w ok = (Except.ok (), m, w'))
    (body : Except Exc α) :
    (∀ a, body = Except.ok a →
      (m.get_session body).1 = Except.ok a ∧
      SessionOp.commit ∈ (m.get_session body).2) ∧
    (∀ e, body = Except.error e →
      (m.get_session body).1 = Except.error e ∧
      SessionOp.rollback ∈ (m.get_session body).2) ∧
    (m.get_session body).2.getLast? = some SessionOp.close := by
  have hflag : m._initialized = true := db_initialize_ok_flag hinit
  cases body <;> simp [DatabaseManager.get_session, hflag, List.getLast?]

/-- Concrete instance of C1: the manager produced by a successful
`initialize` from the fresh state, with a normally completing body and with
a raising body. -/
theorem c1_scoped_session_witness :
    ((dbInit1.get_session (Except.ok (5 : Nat))).1 = Except.ok 5 ∧
      SessionOp.commit ∈ (dbInit1.get_session (Except.ok (5 : Nat))).2) ∧
    ((dbInit1.get_session (Except.error (Exc.store "boom") : Except Exc Nat)).1
        = Except.error (Exc.store "boom") ∧
      SessionOp.rollback ∈
        (dbInit1.get_session (Except.error (Exc.store "boom") : Except Exc Nat)).2) ∧
    (dbInit1.get_session (Except.ok (5 : Nat))).2.getLast?
        = some SessionOp.close := by
  refine ⟨?_, ?_, ?_⟩
  · exact (c1_scoped_session_commit_rollback_close Nat DatabaseManager.new dbInit1
      ⟨0⟩ ⟨1⟩ true rfl (Except.ok 5)).1 5 rfl
  · exact (c1_scoped_session_commit_rollback_close Nat DatabaseManager.new dbInit1
      ⟨0⟩ ⟨1⟩ true rfl (Except.error (Exc.store "boom"))).2.1 (Exc.store "boom") rfl
  · exact (c1_scoped_session_commit_rollback_close Nat DatabaseManager.new dbInit1
      ⟨0⟩ ⟨1⟩ true rfl (Except.ok 5)).2.2

/-- Claim C2, counterexample: in the execution where closing the
DatabaseManager raises, the shutdown block of `lifespan` never attempts the
CacheManager close — both closes sit in one `try`, so the first failure
jumps to the `except`. -/
theorem c2_counterexample :
    CloseAttempt.redis ∉
      (lifespanShutdown (Except.error (Exc.store "engine dispose failed"))
        (Except.ok ())).2 := by decide

/-- Claim C2 as amended: during shutdown, the DatabaseManager close is
attempted first and no shutdown error propagates out of the hook; when the
DatabaseManager close succeeds the CacheManager close is then attempted,
but when it raises the CacheManager close is not attempted, because both
calls share a single `try` block. -/
theorem c2_shutdown_single_try (dbClose redisClose : Except Exc Unit) :
    (lifespanShutdown dbClose redisClose).1 = Except.ok () ∧
    (lifespanShutdown dbClose redisClose).2.head? = some CloseAttempt.db ∧
    (dbClose = Except.ok () →
      (lifespanShutdown dbClose redisClose).2
        = [CloseAttempt.db, CloseAttempt.redis]) ∧
    (∀ e, dbClose = Except.error e →
      (lifespanShutdown dbClose redisClose).2 = [CloseAttempt.db]) := by
  cases dbClose <;> cases redisClose <;> simp [lifespanShutdown]

/-- Concrete instances of the amended C2: a failing database close keeps
the hook from raising but skips the cache close; a successful database
close reaches the cache close. -/
theorem c2_shutdown_single_try_witness :
    (lifespanShutdown (Except.ok ()) (Except.ok ())).2
        = [CloseAttempt.db, CloseAttempt.redis] ∧
    (lifespanShutdown (Except.error (Exc.store "x")) (Except.ok ())).2
        = [CloseAttempt.db] ∧
    (lifespanShutdown (Except.error (Exc.store "x")) (Except.ok ())).1
        = Except.ok () :=
  ⟨(c2_shutdown_single_try (Except.ok ()) (Except.ok ())).2.2.1 rfl,
   (c2_shutdown_single_try (Except.error (Exc.store "x")) (Except.ok ())).2.2.2
     (Exc.store "x") rfl,
   (c2_shutdown_single_try (Except.error (Exc.store "x")) (Except.ok ())).1⟩

/-- Claim C3: when exactly one of the two stores is unreachable, the
`GET /health` route responds 200 with status degraded, puts that store's
error text in its field in `error: detail` form, leaves the other field
`connected`, and still performs both checks. -/
theorem c3_health_degraded_one_store (env : Env) (dbExec : Except Exc Unit)
    (redisPing : Except Exc Bool) :
    (∀ e b, dbExec = Except.error e → redisPing = Except.ok b →
      health_check_route env dbExec redisPing =
        ((200, { status := "degraded", database := "error: " ++ e.pyStr,
                 redis := "connected", environment := env.pyStr }),
          [CheckStep.db, CheckStep.redis])) ∧
    (∀ e u, redisPing = Except.error e → dbExec = Except.ok u →
      health_check_route env dbExec redisPing =
        ((200, { status := "degraded", database := "connected",
                 redis := "error: " ++ e.pyStr, environment := env.pyStr }),
          [CheckStep.db, CheckStep.redis])) := by
  constructor <;> intro e x he hx <;> subst he <;> subst hx <;>
    simp [health_check_route]

/-- Concrete instances of C3: database down with cache up, and cache down
with database up. -/
theorem c3_health_degraded_witness :
    health_check_route Env.development
        (Except.error (Exc.store "connection refused")) (Except.ok true) =
      ((200, { status := "degraded", database := "error: connection refused",
               redis := "connected", environment := "development" }),
        [CheckStep.db, CheckStep.redis]) ∧
    health_check_route Env.development (Except.ok ())
        (Except.error (Exc.store "timeout")) =
      ((200, { status := "degraded", database := "connected",
               redis := "error: timeout", environment := "development" }),
        [CheckStep.db, CheckStep.redis]) :=
  ⟨(c3_health_degraded_one_store Env.development
      (Except.error (Exc.store "connection refused")) (Except.ok true)).1
      (Exc.store "connection refused") true rfl rfl,
   (c3_health_degraded_one_store Env.development (Except.ok ())
      (Except.error (Exc.store "timeout"))).2
      (Exc.store "timeout") () rfl rfl⟩

/-- A successful `RedisManager.initialize` always leaves the flag set. -/
theorem redis_initialize_ok_flag {m m' : RedisManager} {w w' : RedisWorld}
    {c p : Bool}
    (h : RedisManager.initialize m w c p = (Except.ok (), m', w')) :
    m'._initialized = true := by
  cases hm : m._initialized <;> cases hc : c <;> cases hp : p <;>
    simp [ RedisManager.initialize, hm, hc, hp] at h <;>
    simp [← h.1, hm]

/-- A successful `RedisManager.initialize` from a not-yet-initialized state
constructs exactly one pool and one client and sets the flag. -/
theorem redis_initialize_fresh_ok {m₀ m : RedisManager} {w w' : RedisWorld}
    {c p : Bool} (h0 : m₀._initialized = false)
    (h : RedisManager.initialize m₀ w c p = (Except.ok (), m, w')) :
    m = { pool := some w.poolsCreated, client := some w.poolsCreated,
          _initialized := true } ∧
    w' = { w with poolsCreated := w.poolsCreated + 1,
                  clientsCreated := w.clientsCreated + 1 } := by
  cases hc : c <;> cases hp : p <;>
    simp [ RedisManager.initialize, h0, hc, hp] at h
  exact ⟨h.1.symm, h.2.symm⟩

/-- Claim C4: every session- or client-producing accessor invoked while the
manager's `_initialized` flag is still unset fails with the lifecycle
`RuntimeError`, and after a successful `initialize` the same accessors
yield the session or client without a lifecycle error. -/
theorem c4_lifecycle_gating :
    (∀ (m : DatabaseManager) (body : Except Exc Unit),
      m._initialized = false →
      (m.get_session body).1 = Except.error (Exc.lifecycle dbNotInitializedMsg)) ∧
    (∀ m : RedisManager, m._initialized = false →
      m.get_client = Except.error (Exc.lifecycle redisNotInitializedMsg) ∧
      ∀ body : Nat → Except Exc Unit,
        m.get_client_context body
          = Except.error (Exc.lifecycle redisNotInitializedMsg)) ∧
    (∀ (m₀ m : DatabaseManager) (w w' : DbWorld) (ok : Bool)
        (body : Except Exc Unit),
      DatabaseManager.initialize m₀ w ok = (Except.ok (), m, w') →
      (m.get_session body).1 = body) ∧
    (∀ (m₀ m : RedisManager) (w w' : RedisWorld) (c p : Bool),
      m₀._initialized = false →
      RedisManager.initialize m₀ w c p = (Except.ok (), m, w') →
      (∃ cl, m.get_client = Except.ok cl) ∧
      ∀ body : Nat → Except Exc Unit, ∃ cl, m.get_client_context body = body cl) := by
  refine ⟨?_, ?_, ?_, ?_⟩
  · intro m body h
    simp [DatabaseManager.get_session, h]
  · intro m h
    exact ⟨by simp [RedisManager.get_client, h],
           fun body => by simp [RedisManager.get_client_context, h]⟩
  · intro m₀ m w w' ok body hinit
    have hflag := db_initialize_ok_flag hinit
    cases body <;> simp [DatabaseManager.get_session, hflag]
  · intro m₀ m w w' c p h0 hinit
    obtain ⟨hm, -⟩ := redis_initialize_fresh_ok h0 hinit
    subst hm
    exact ⟨⟨w.poolsCreated, rfl⟩, fun body => ⟨w.poolsCreated, rfl⟩⟩

/-- Concrete instance of C4: fresh managers fail with the lifecycle error,
managers that completed `initialize` succeed. -/
theorem c4_lifecycle_gating_witness :
    (DatabaseManager.new.get_session (Except.ok ())).1
        = Except.error (Exc.lifecycle dbNotInitializedMsg) ∧
    RedisManager.new.get_client
        = Except.error (Exc.lifecycle redisNotInitializedMsg) ∧
    (dbInit1.get_session (Except.ok ())).1 = Except.ok () ∧
    (∃ cl, RedisManager.get_client
        { pool := some 0, client := some 0, _initialized := true }
        = Except.ok cl) := by
  refine ⟨?_, ?_, ?_, ?_⟩
  · exact c4_lifecycle_gating.1 DatabaseManager.new (Except.ok ()) rfl
  · exact (c4_lifecycle_gating.2.1 RedisManager.new rfl).1
  · exact c4_lifecycle_gating.2.2.1 DatabaseManager.new dbInit1 ⟨0⟩ ⟨1⟩ true
      (Except.ok ()) rfl
  · exact (c4_lifecycle_gating.2.2.2 RedisManager.new
      { pool := some 0, client := some 0, _initialized := true }
      ⟨0, 0, []⟩ ⟨1, 1, []⟩ true true rfl rfl).1

/-- Claim C5: once a manager's `initialize` has succeeded, a second call to
`initialize` returns successfully without constructing another
engine/pool/client and leaves both the manager state and the world counters
unchanged — the guarded early-return branch. -/
theorem c5_initialize_idempotent :
    (∀ (m m' : DatabaseManager) (w w' : DbWorld) (ok : Bool),
      DatabaseManager.initialize m w ok = (Except.ok (), m', w') →
      ∀ ok₂ : Bool,
        DatabaseManager.initialize m' w' ok₂ = (Except.ok (), m', w')) ∧
    (∀ (m m' : RedisManager) (w w' : RedisWorld) (c p : Bool),
      RedisManager.initialize m w c p = (Except.ok (), m', w') →
      ∀ c₂ p₂ : Bool,
        RedisManager.initialize m' w' c₂ p₂ = (Except.ok (), m', w')) := by
  constructor
  · intro m m' w w' ok h ok₂
    have hflag := db_initialize_ok_flag h
    simp [ DatabaseManager.initialize, hflag]
  · intro m m' w w' c p h c₂ p₂
    have hflag := redis_initialize_ok_flag h
    simp [ RedisManager.initialize, hflag]

/-- Concrete instance of C5: a second `initialize` after the first
successful one is a no-op for both managers. -/
theorem c5_initialize_idempotent_witness :
    DatabaseManager.initialize dbInit1 ⟨1⟩ true = (Except.ok (), dbInit1, ⟨1⟩) ∧
    RedisManager.initialize
        { pool := some 0, client := some 0, _initialized := true }
        ⟨1, 1, []⟩ true true
      = (Except.ok (),
         { pool := some 0, client := some 0, _initialized := true },
         ⟨1, 1, []⟩) :=
  ⟨c5_initialize_idempotent.1 DatabaseManager.new dbInit1 ⟨0⟩ ⟨1⟩ true rfl true,
   c5_initialize_idempotent.2 RedisManager.new
     { pool := some 0, client := some 0, _initialized := true }
     ⟨0, 0, []⟩ ⟨1, 1, []⟩ true true rfl true true⟩

/-- Claim C6: on every manager state and every outcome of the underlying
round-trip, `health_check` returns an `Except.ok` boolean — it never
raises — and it returns `false` whenever the underlying check failed or the
manager has no client. -/
theorem c6_health_check_total :
    (∀ (m : DatabaseManager) (ex : Except Exc Unit),
      (∃ b, m.health_check ex = Except.ok b) ∧
      (∀ e, (m.get_session ex).1 = Except.error e →
        m.health_check ex = Except.ok false)) ∧
    (∀ (m : RedisManager) (ping : Except Exc Bool),
      (∃ b, m.health_check ping = Except.ok b) ∧
      (∀ e, ping = Except.error e → m.health_check ping = Except.ok false) ∧
      (m.client = none → m.health_check ping = Except.ok false)) := by
  constructor
  · intro m ex
    constructor
    · cases hge : (m.get_session ex).1 with
      | ok a => exact ⟨true, by simp [DatabaseManager.health_check, hge]⟩
      | error e => exact ⟨false, by simp [DatabaseManager.health_check, hge]⟩
    · intro e he
      simp [DatabaseManager.health_check, he]
  · intro m ping
    refine ⟨?_, ?_, ?_⟩
    · cases hc : m.client with
      | none => exact ⟨false, by simp [RedisManager.health_check, hc]⟩
      | some cl =>
        cases ping with
        | ok b => exact ⟨b, by simp [RedisManager.health_check, hc]⟩
        | error e => exact ⟨false, by simp [RedisManager.health_check, hc]⟩
    · intro e he
      cases hc : m.client <;> simp [RedisManager.health_check, hc, he]
    · intro hc
      simp [RedisManager.health_check, hc]

/-- Concrete instance of C6: an uninitialized database manager and an
unreachable cache both report `false` without raising. -/
theorem c6_health_check_witness :
    DatabaseManager.new.health_check (Except.ok ()) = Except.ok false ∧
    RedisManager.health_check
        { pool := some 0, client := some 0, _initialized := true }
        (Except.error (Exc.store "connection refused")) = Except.ok false :=
  ⟨(c6_health_check_total.1 DatabaseManager.new (Except.ok ())).2
     (Exc.lifecycle dbNotInitializedMsg) rfl,
   (c6_health_check_total.2
     { pool := some 0, client := some 0, _initialized := true }
     (Except.error (Exc.store "connection refused"))).2.1
     (Exc.store "connection refused") rfl⟩

/-- Reduction of `Except` bind on a success value. -/
theorem exceptBindOk {α β γ : Type} (a : α) (f : α → Except γ β) :
    (Except.ok a >>= f) = f a := rfl

/-- Reduction of `Except` bind on an error value. -/
theorem exceptBindError {α β γ : Type} (e : γ) (f : α → Except γ β) :
    ((Except.error e : Except γ α) >>= f) = Except.error e := rfl

/-- Production settings with a 32-character secret key. -/
def prodSettings : Settings :=
  { defaultSettings with ENVIRONMENT := Env.production,
                         SECRET_KEY := "0123456789abcdef0123456789abcdef" }

/-- Production settings with a 5-character secret key. -/
def prodShortSettings : Settings :=
  { defaultSettings with ENVIRONMENT := Env.production, SECRET_KEY := "short" }

/-- Development settings with a 5-character secret key. -/
def devShortSettings : Settings :=
  { defaultSettings with SECRET_KEY := "short" }

/-- Claim C7: under the production environment, constructing `Settings`
with a secret key shorter than 32 characters fails, and with 32 or more
characters the secret-key validation passes and construction succeeds. -/
theorem c7_production_secret_key (d : Settings)
    (h : d.ENVIRONMENT = Env.production) :
    (d.SECRET_KEY.length < 32 → ∃ e, mkSettings d = Except.error e) ∧
    (32 ≤ d.SECRET_KEY.length → mkSettings d = Except.ok d) := by
  constructor
  · intro hlen
    exact ⟨stringTooShortMsg,
      by simp [mkSettings, secretKeyMinLength, hlen, exceptBindError]⟩
  · intro hlen
    have h1 : ¬ d.SECRET_KEY.length < 32 := not_lt.mpr hlen
    simp [mkSettings, secretKeyMinLength, validate_secret_key, h1, h,
      exceptBindOk, exceptBindError]
    rw [← h]

/-- Concrete instance of C7: a short production key is rejected, a
32-character production key is accepted. -/
theorem c7_production_secret_key_witness :
    (∃ e, mkSettings prodShortSettings = Except.error e) ∧
    mkSettings prodSettings = Except.ok prodSettings :=
  ⟨(c7_production_secret_key prodShortSettings rfl).1 (by decide),
   (c7_production_secret_key prodSettings rfl).2 (by decide)⟩

/-- Claim C9: the `min_length=32` constraint on the `SECRET_KEY` field is
unconditional, so a secret key shorter than 32 characters makes `Settings`
construction fail in every environment, not only in production. -/
theorem c9_secret_key_min_length_all_envs (d : Settings)
    (h : d.SECRET_KEY.length < 32) :
    ∃ e, mkSettings d = Except.error e :=
  ⟨stringTooShortMsg,
    by simp [mkSettings, secretKeyMinLength, h, exceptBindError]⟩

/-- Concrete instance of C9: a short secret key is rejected under the
development environment. -/
theorem c9_secret_key_min_length_witness :
    ∃ e, mkSettings devShortSettings = Except.error e :=
  c9_secret_key_min_length_all_envs devShortSettings (by decide)

/-- Claim C8, counterexample: with a configured-but-empty cache password
(`REDIS_PASSWORD` holds the empty string) the derived DSN omits the
credential segment, because the source guards on Python truthiness of the
field, not on its presence. -/
theorem c8_counterexample : ¬ specIncludesCredWhenPassword emptyPasswordSettings := by
  intro h
  exact absurd (h "" rfl) (by decide)

/-- Claim C8 as amended: the DSN omits the credential segment when the
password is unset or empty, and carries it in `:password@` form between
scheme and host whenever a nonempty password is configured; host, port and
db-index are substituted positionally in both cases. -/
theorem c8_redis_dsn_credential_segment (s : Settings) :
    ((s.REDIS_PASSWORD = none ∨ s.REDIS_PASSWORD = some "") →
      s.REDIS_DSN = "redis://" ++ s.REDIS_HOST ++ ":" ++ toString s.REDIS_PORT
        ++ "/" ++ toString s.REDIS_DB) ∧
    (∀ p, s.REDIS_PASSWORD = some p → p ≠ "" →
      s.REDIS_DSN = "redis://:" ++ p ++ "@" ++ s.REDIS_HOST ++ ":"
        ++ toString s.REDIS_PORT ++ "/" ++ toString s.REDIS_DB) := by
  constructor
  · rintro (h | h) <;> simp [Settings.REDIS_DSN, optStrTruthy, h]
  · intro p hp hne
    simp [Settings.REDIS_DSN, optStrTruthy, hp, hne]

/-- Settings with a nonempty cache password and defaults elsewhere. -/
def passwordSettings : Settings :=
  { defaultSettings with REDIS_PASSWORD := some "secretpw" }

/-- Concrete instance of the amended C8: no password gives the bare DSN, a
nonempty password inserts the credential segment. -/
theorem c8_redis_dsn_witness :
    defaultSettings.REDIS_DSN
      = "redis://" ++ "localhost" ++ ":" ++ toString 6379 ++ "/" ++ toString 0 ∧
    passwordSettings.REDIS_DSN
      = "redis://:" ++ "secretpw" ++ "@" ++ "localhost" ++ ":"
          ++ toString 6379 ++ "/" ++ toString 0 :=
  ⟨(c8_redis_dsn_credential_segment defaultSettings).1 (Or.inl rfl),
   (c8_redis_dsn_credential_segment passwordSettings).2 "secretpw" rfl (by decide)⟩

/-- Claim C10: after a successful `initialize` followed by `close`, the
flag is reset but the `client` attribute keeps pointing at the
now-closed client, so the flag-checking `get_client` fails with a
lifecycle error while the dependency accessor `get_redis` — which checks
only that a client object exists — returns the closed client. -/
theorem c10_get_redis_bypasses_flag (m₀ m m' : RedisManager)
    (w w' w'' : RedisWorld) (c p : Bool)
    (h0 : m₀._initialized = false)
    (hinit : RedisManager.initialize m₀ w c p = (Except.ok (), m, w'))
    (hclose : RedisManager.close m w' = (m', w'')) :
    m'._initialized = false ∧
    (∃ cl, m'.client = some cl ∧ get_redis m' = Except.ok cl ∧
      cl ∈ w''.closedClients) ∧
    m'.get_client = Except.error (Exc.lifecycle redisNotInitializedMsg) := by
  obtain ⟨hm, hw⟩ := redis_initialize_fresh_ok h0 hinit
  subst hm
  simp [RedisManager.close] at hclose
  obtain ⟨hm', hw'⟩ := hclose
  subst hm' hw'
  exact ⟨rfl, ⟨w.poolsCreated, rfl, rfl, List.mem_cons_self _ _⟩, rfl⟩

/-- Concrete instance of C10: initialize from fresh, then close; the
dependency accessor still hands out client 0 while `get_client` raises. -/
theorem c10_get_redis_bypasses_flag_witness :
    RedisManager.get_client { pool := some 0, client := some 0, _initialized := false }
        = Except.error (Exc.lifecycle redisNotInitializedMsg) ∧
    (∃ cl, RedisManager.client
        { pool := some 0, client := some 0, _initialized := false } = some cl ∧
      get_redis { pool := some 0, client := some 0, _initialized := false }
          = Except.ok cl ∧
      cl ∈ RedisWorld.closedClients ⟨1, 1, [0]⟩) := by
  have h := c10_get_redis_bypasses_flag RedisManager.new
    { pool := some 0, client := some 0, _initialized := true }
    { pool := some 0, client := some 0, _initialized := false }
    ⟨0, 0, []⟩ ⟨1, 1, []⟩ ⟨1, 1, [0]⟩ true true rfl rfl rfl
  exact ⟨h.2.2, h.2.1⟩
